import Mathlib

/-!
Shallow embedding of the `wecom_bot` Rust crate (message construction,
typed-payload JSON serialization, image encoding, media types, client
builder and response handling), together with theorems settling the
specification claims about it.

JSON values are modelled by an explicit AST; serde's derived serialization
of each source type is embedded as a Lean function producing that AST,
following serde's documented semantics (field order = declaration order,
`skip_serializing_if = "Option::is_none"` omits the key entirely,
`#[serde(flatten)]` merges the externally-tagged enum map into the outer
object, `rename` fixes the wire key).
-/

set_option maxRecDepth 100000

/-- A JSON value, as produced by serde_json serialization. Object fields
are kept in emission order. -/
inductive Json where
  | str : String → Json
  | num : Int → Json
  | arr : List Json → Json
  | obj : List (String × Json) → Json
  | bool : Bool → Json
  | null : Json

/-! ## Base64 (standard alphabet, padded) — contract of `general_purpose::STANDARD.encode` -/

/-- The standard base64 alphabet: index 0-25 ↦ A-Z, 26-51 ↦ a-z,
52-61 ↦ 0-9, 62 ↦ +, 63 ↦ /. -/
def b64Char (n : Nat) : Char :=
  if n < 26 then Char.ofNat (65 + n)
  else if n < 52 then Char.ofNat (97 + (n - 26))
  else if n < 62 then Char.ofNat (48 + (n - 52))
  else if n = 62 then '+'
  else '/'

/-- Standard padded base64 of a byte list, three input bytes per four
output characters, `=`-padded tail. -/
def b64Chunks : List Nat → List Char
  | [] => []
  | [b0] => [b64Char (b0 / 4), b64Char (b0 % 4 * 16), '=', '=']
  | [b0, b1] => [b64Char (b0 / 4), b64Char (b0 % 4 * 16 + b1 / 16), b64Char (b1 % 16 * 4), '=']
  | b0 :: b1 :: b2 :: rest =>
    b64Char (b0 / 4) :: b64Char (b0 % 4 * 16 + b1 / 16) ::
      b64Char (b1 % 16 * 4 + b2 / 64) :: b64Char (b2 % 64) :: b64Chunks rest

/-- Base64 encoding of bytes as a string (the `encode_base64` collaborator
contract from the spec, realized by the `base64` crate in the source). -/
def base64Encode (bytes : List Nat) : String :=
  String.mk (b64Chunks bytes)

/-! ## MD5 (RFC 1321) — contract of `md5::compute` + `format!("{:x}", _)` -/

/-- The 64 MD5 round constants `K[i] = floor(|sin(i+1)| * 2^32)`. -/
def md5K : List Nat :=
  [0xd76aa478, 0xe8c7b756, 0x242070db, 0xc1bdceee,
   0xf57c0faf, 0x4787c62a, 0xa8304613, 0xfd469501,
   0x698098d8, 0x8b44f7af, 0xffff5bb1, 0x895cd7be,
   0x6b901122, 0xfd987193, 0xa679438e, 0x49b40821,
   0xf61e2562, 0xc040b340, 0x265e5a51, 0xe9b6c7aa,
   0xd62f105d, 0x02441453, 0xd8a1e681, 0xe7d3fbc8,
   0x21e1cde6, 0xc33707d6, 0xf4d50d87, 0x455a14ed,
   0xa9e3e905, 0xfcefa3f8, 0x676f02d9, 0x8d2a4c8a,
   0xfffa3942, 0x8771f681, 0x6d9d6122, 0xfde5380c,
   0xa4beea44, 0x4bdecfa9, 0xf6bb4b60, 0xbebfbc70,
   0x289b7ec6, 0xeaa127fa, 0xd4ef3085, 0x04881d05,
   0xd9d4d039, 0xe6db99e5, 0x1fa27cf8, 0xc4ac5665,
   0xf4292244, 0x432aff97, 0xab9423a7, 0xfc93a039,
   0x655b59c3, 0x8f0ccc92, 0xffeff47d, 0x85845dd1,
   0x6fa87e4f, 0xfe2ce6e0, 0xa3014314, 0x4e0811a1,
   0xf7537e82, 0xbd3af235, 0x2ad7d2bb, 0xeb86d391]

/-- The 64 MD5 per-round left-rotation amounts. -/
def md5S : List Nat :=
  [7, 12, 17, 22, 7, 12, 17, 22, 7, 12, 17, 22, 7, 12, 17, 22,
   5, 9, 14, 20, 5, 9, 14, 20, 5, 9, 14, 20, 5, 9, 14, 20,
   4, 11, 16, 23, 4, 11, 16, 23, 4, 11, 16, 23, 4, 11, 16, 23,
   6, 10, 15, 21, 6, 10, 15, 21, 6, 10, 15, 21, 6, 10, 15, 21]

/-- MD5 working state: four 32-bit words kept as `Nat` values `< 2^32`. -/
structure MD5State where
  a : Nat
  b : Nat
  c : Nat
  d : Nat

/-- One MD5 round `i` over message words `M` (32-bit modular arithmetic on
`Nat`, with `x ^^^ 0xffffffff` as 32-bit complement). -/
def md5Round (M : List Nat) (st : MD5State) (i : Nat) : MD5State :=
  let f :=
    if i < 16 then (st.b &&& st.c) ||| ((st.b ^^^ 0xffffffff) &&& st.d)
    else if i < 32 then (st.d &&& st.b) ||| ((st.d ^^^ 0xffffffff) &&& st.c)
    else if i < 48 then st.b ^^^ st.c ^^^ st.d
    else st.c ^^^ (st.b ||| (st.d ^^^ 0xffffffff))
  let g :=
    if i < 16 then i
    else if i < 32 then (5 * i + 1) % 16
    else if i < 48 then (3 * i + 5) % 16
    else 7 * i % 16
  let sum := (f + st.a + md5K.getD i 0 + M.getD g 0) % 4294967296
  let rot := md5S.getD i 0
  let rotated := ((sum <<< rot) ||| (sum >>> (32 - rot))) % 4294967296
  ⟨st.d, (st.b + rotated) % 4294967296, st.b, st.c⟩

/-- Little-endian byte decomposition of `n` into `width` bytes. -/
def leBytes (n : Nat) (width : Nat) : List Nat :=
  (List.range width).map fun i => n >>> (8 * i) % 256

/-- The sixteen little-endian 32-bit message words of one 64-byte block. -/
def md5Words (block : List Nat) : List Nat :=
  (List.range 16).map fun j =>
    block.getD (4 * j) 0 + 256 * block.getD (4 * j + 1) 0 +
      65536 * block.getD (4 * j + 2) 0 + 16777216 * block.getD (4 * j + 3) 0

/-- Process one 64-byte block: 64 rounds, then add into the running state
modulo `2^32`. -/
def md5Block (st : MD5State) (block : List Nat) : MD5State :=
  let M := md5Words block
  let r := (List.range 64).foldl (md5Round M) st
  ⟨(st.a + r.a) % 4294967296, (st.b + r.b) % 4294967296,
   (st.c + r.c) % 4294967296, (st.d + r.d) % 4294967296⟩

/-- MD5 padding: append `0x80`, zero-fill to 56 mod 64, then the 64-bit
little-endian bit length. -/
def md5Pad (msg : List Nat) : List Nat :=
  msg ++ [128] ++ List.replicate ((119 - msg.length % 64) % 64) 0 ++
    leBytes (8 * msg.length % 18446744073709551616) 8

/-- Split a byte list into consecutive 64-byte blocks; the fuel argument
bounds the recursion depth (one unit per block suffices). -/
def chunks64Aux : Nat → List Nat → List (List Nat)
  | 0, _ => []
  | _, [] => []
  | fuel + 1, a :: rest => (a :: rest).take 64 :: chunks64Aux fuel (rest.drop 63)

/-- Split a byte list into consecutive 64-byte blocks. -/
def chunks64 (l : List Nat) : List (List Nat) :=
  chunks64Aux l.length l

/-- The sixteen-byte MD5 digest of a byte list. -/
def md5Bytes (msg : List Nat) : List Nat :=
  let st := (chunks64 (md5Pad msg)).foldl md5Block
    ⟨0x67452301, 0xefcdab89, 0x98badcfe, 0x10325476⟩
  leBytes st.a 4 ++ leBytes st.b 4 ++ leBytes st.c 4 ++ leBytes st.d 4

/-- Lowercase hexadecimal digit for a nibble. -/
def hexDigit (n : Nat) : Char :=
  if n < 10 then Char.ofNat (48 + n) else Char.ofNat (87 + n)

/-- Two lowercase hex digits of one byte. -/
def byteHex (b : Nat) : List Char := [hexDigit (b / 16), hexDigit (b % 16)]

/-- Lowercase hex MD5 digest of a byte list (the `md5_hex` collaborator
contract from the spec, realized by the `md5` crate in the source). -/
def md5Hex (msg : List Nat) : String :=
  String.mk ((md5Bytes msg).map byteHex).flatten

/-! ## `src/image.rs` -/

/-- `Image`: raw byte content, caller-provided (`Image::new`). -/
structure Image where
  content : List Nat

/-- `Image::encode`: base64 of the content and lowercase hex MD5 of the
same raw, pre-base64 content. -/
def Image.encode (img : Image) : String × String :=
  (base64Encode img.content, md5Hex img.content)

/-! ## `src/message.rs` -/

/-- `Article`: element of a news message. Fields in declaration order;
`description` and `pic_url` are optional. -/
structure Article where
  title : String
  description : Option String
  url : String
  pic_url : Option String

/-- `Article::new(title, url)`: both optional fields unset. -/
def Article.new (title url : String) : Article :=
  ⟨title, none, url, none⟩

/-- `Article::desc`: set the description. -/
def Article.desc (a : Article) (d : String) : Article :=
  { a with description := some d }

/-- `Article::pic`: set the picture link. -/
def Article.pic (a : Article) (p : String) : Article :=
  { a with pic_url := some p }

/-- Contribution of one optional string field to a serde object:
omitted entirely when `none` (`skip_serializing_if = "Option::is_none"`). -/
def optStrField (name : String) (v : Option String) : List (String × Json) :=
  match v with
  | none => []
  | some s => [(name, Json.str s)]

/-- Contribution of one optional string-list field to a serde object:
omitted entirely when `none`. -/
def optStrListField (name : String) (v : Option (List String)) : List (String × Json) :=
  match v with
  | none => []
  | some l => [(name, Json.arr (l.map Json.str))]

/-- serde serialization of `Article`: `title`, optional `description`,
`url`, then the optional picture link under the wire name `picurl`. -/
def Article.toJson (a : Article) : Json :=
  Json.obj ([("title", Json.str a.title)] ++ optStrField "description" a.description ++
    [("url", Json.str a.url)] ++ optStrField "picurl" a.pic_url)

/-- `MessageBody`: the payload variants of a wecom message, with the
fields of each variant in declaration order. -/
inductive MessageBody where
  | text (content : String) (mentioned_list : Option (List String))
      (mentioned_mobile_list : Option (List String))
  | markdown (content : String)
  | image (base64 : String) (md5 : String)
  | news (articles : List Article)
  | file (media_id : String)

/-- The serde rename of each variant: its wire tag. -/
def MessageBody.tag : MessageBody → String
  | .text .. => "text"
  | .markdown .. => "markdown"
  | .image .. => "image"
  | .news .. => "news"
  | .file .. => "file"

/-- Whether the body is the Text variant. -/
def MessageBody.isText : MessageBody → Bool
  | .text .. => true
  | _ => false

/-- serde serialization of the fields of one variant, options omitted
when unset. -/
def MessageBody.payload : MessageBody → Json
  | .text content ml mml =>
    Json.obj ([("content", Json.str content)] ++
      optStrListField "mentioned_list" ml ++
      optStrListField "mentioned_mobile_list" mml)
  | .markdown content => Json.obj [("content", Json.str content)]
  | .image base64 md5 => Json.obj [("base64", Json.str base64), ("md5", Json.str md5)]
  | .news articles => Json.obj [("articles", Json.arr (articles.map Article.toJson))]
  | .file media_id => Json.obj [("media_id", Json.str media_id)]

/-- `Message`: the `msgtype` tag string together with the flattened body. -/
structure Message where
  msg_type : String
  body : MessageBody

/-- serde serialization of `Message`: the `msgtype` field, then the
externally-tagged enum body flattened into the same object — one key
named by the variant's tag holding the variant's field map. -/
def Message.toJson (m : Message) : Json :=
  Json.obj [("msgtype", Json.str m.msg_type), (m.body.tag, m.body.payload)]

/-- `Message::text`: Text variant with both mention lists unset. -/
def Message.text (content : String) : Message :=
  ⟨"text", .text content none none⟩

/-- `Message::markdown`. -/
def Message.markdown (content : String) : Message :=
  ⟨"markdown", .markdown content⟩

/-- `Message::image`: encodes the image into `(base64, md5)`. -/
def Message.image (img : Image) : Message :=
  ⟨"image", .image img.encode.1 img.encode.2⟩

/-- `Message::news`. -/
def Message.news (articles : List Article) : Message :=
  ⟨"news", .news articles⟩

/-- `Message::file`. -/
def Message.file (media_id : String) : Message :=
  ⟨"file", .file media_id⟩

/-- `Message::mentioned_list` (from the `inject_iter_fields` macro): on a
Text body replace the `mentioned_list` field with `Some` of the collected
input; on any other body return `self` unchanged. -/
def Message.mentioned_list (m : Message) (iter : List String) : Message :=
  match m.body with
  | .text content _ mml => { m with body := .text content (some iter) mml }
  | _ => m

/-- `Message::mentioned_mobile_list` (from the `inject_iter_fields`
macro): on a Text body replace the `mentioned_mobile_list` field with
`Some` of the collected input; otherwise return `self` unchanged. -/
def Message.mentioned_mobile_list (m : Message) (iter : List String) : Message :=
  match m.body with
  | .text content ml _ => { m with body := .text content ml (some iter) }
  | _ => m

/-! ## `src/bot.rs` errors and `src/media.rs` -/

/-- `WeComError`: the error taxonomy of the crate. Payloads that wrap
foreign error values (`reqwest::Error`, `io::Error`, `serde_json::Error`)
are reduced to the data the claims inspect: the HTTP status for `Http`,
the expected type's name for `DataType`, the offending string for
`MediaType`. -/
inductive WeComError where
  | keyNotFound
  | network
  | http (status : Nat)
  | dataType (typename : String)
  | imageRead
  | fileRead
  | mediaType (s : String)
deriving DecidableEq

/-- ASCII lowercasing of a string, the behaviour of Rust's
`str::to_lowercase` on the ASCII inputs the recognizer compares against. -/
def rustToLowercase (s : String) : String :=
  String.mk (s.data.map Char.toLower)

/-- `MediaType`: the closed upload-kind enumeration. -/
inductive MediaType where
  | file
  | image
  | voice
  | video
deriving DecidableEq

/-- `MediaType::from_str`: match the lowercased input against the four
recognized kinds, otherwise the media-type error carrying the original
string. -/
def MediaType.from_str (s : String) : Except WeComError MediaType :=
  if rustToLowercase s = "file" then .ok .file
  else if rustToLowercase s = "image" then .ok .image
  else if rustToLowercase s = "voice" then .ok .voice
  else if rustToLowercase s = "video" then .ok .video
  else .error (.mediaType s)

/-- `MediaType::to_string`: the canonical lowercase form. -/
def MediaType.to_string : MediaType → String
  | .file => "file"
  | .image => "image"
  | .voice => "voice"
  | .video => "video"

/-- `MediaType::format_upload_url`: append `&type=<kind>` to the base
upload url. -/
def MediaType.format_upload_url (m : MediaType) (base : String) : String :=
  base ++ "&type=" ++ m.to_string

/-! ## `src/response.rs` -/

/-- `SendResp`: decoded send response. -/
structure SendResp where
  err_code : Int
  err_msg : String
deriving DecidableEq

/-- `UploadResp`: decoded upload response. -/
structure UploadResp where
  err_code : Int
  err_msg : String
  media_type : String
  media_id : String
  created_at : String
deriving DecidableEq

/-- `Default for UploadResp`: success with nothing uploaded yet. -/
def UploadResp.default_value : UploadResp :=
  ⟨0, "success", MediaType.file.to_string, "", ""⟩

/-- `UploadResp::new` = the default value. -/
def UploadResp.new : UploadResp :=
  UploadResp.default_value

/-- `UploadResp::is_ok`: `err_code == 0`. -/
def UploadResp.is_ok (r : UploadResp) : Bool :=
  r.err_code == 0

/-- The method names of the inherent `impl` surface of `SendResp` in
`src/response.rs`: there is no `impl SendResp` block at all — the type
only derives `Debug`, `Default` and `Deserialize` — so in particular
`SendResp` has no `is_ok` method. -/
def sendRespMethods : List String := []

/-- The method names of the inherent `impl UploadResp` surface in
`src/response.rs`: `new` and `is_ok`. -/
def uploadRespMethods : List String := ["new", "is_ok"]

/-- First value bound to a key in a serde_json object. -/
def jsonLookup (fields : List (String × Json)) (key : String) : Option Json :=
  match fields with
  | [] => none
  | (k, v) :: rest => if k = key then some v else jsonLookup rest key

/-- serde deserialization of `SendResp` from a JSON value: requires an
object with an integer `errcode` and a string `errmsg`; unknown fields are
ignored. -/
def decodeSendResp (j : Json) : Option SendResp :=
  match j with
  | .obj fields =>
    match jsonLookup fields "errcode", jsonLookup fields "errmsg" with
    | some (.num code), some (.str msg) => some ⟨code, msg⟩
    | _, _ => none
  | _ => none

/-- An optional string field with `#[serde(default)]`: the empty string
when the key is absent, the string when present, failure on a value of
another type. -/
def decodeDefaultStr (v : Option Json) : Option String :=
  match v with
  | none => some ""
  | some (.str s) => some s
  | some _ => none

/-- serde deserialization of `UploadResp` from a JSON value: `errcode`
and `errmsg` are required; `type`, `media_id` and `created_at` carry
`#[serde(default)]` and fall back to the empty string when absent. -/
def decodeUploadResp (j : Json) : Option UploadResp :=
  match j with
  | .obj fields =>
    match jsonLookup fields "errcode", jsonLookup fields "errmsg" with
    | some (.num code), some (.str msg) =>
      match decodeDefaultStr (jsonLookup fields "type"),
          decodeDefaultStr (jsonLookup fields "media_id"),
          decodeDefaultStr (jsonLookup fields "created_at") with
      | some t, some mid, some ca => some ⟨code, msg, t, mid, ca⟩
      | _, _, _ => none
    | _, _ => none
  | _ => none

/-! ## `src/bot.rs` client construction and response handling -/

/-- The fixed send endpoint `WECOM_SEND_URL`. -/
def WECOM_SEND_URL : String := "https://qyapi.weixin.qq.com/cgi-bin/webhook/send"

/-- The fixed upload endpoint `WECOM_UPLOAD_URL`. -/
def WECOM_UPLOAD_URL : String := "https://qyapi.weixin.qq.com/cgi-bin/webhook/upload_media"

/-- Rust's `char::is_whitespace`: the Unicode `White_Space` property —
U+0009-U+000D, U+0020, U+0085, U+00A0, U+1680, U+2000-U+200A, U+2028,
U+2029, U+202F, U+205F and U+3000. -/
def rustIsWhitespace (c : Char) : Bool :=
  (9 ≤ c.toNat && c.toNat ≤ 13) || c.toNat == 32 || c.toNat == 133 ||
    c.toNat == 160 || c.toNat == 5760 || (8192 ≤ c.toNat && c.toNat ≤ 8202) ||
    c.toNat == 8232 || c.toNat == 8233 || c.toNat == 8239 ||
    c.toNat == 8287 || c.toNat == 12288

/-- Rust's `str::trim`: drop leading and trailing characters with the
Unicode `White_Space` property. -/
def rustTrim (s : String) : String :=
  String.mk (((s.data.dropWhile rustIsWhitespace).reverse.dropWhile rustIsWhitespace).reverse)

/-- `WeComBot`: the configured client — its two derived URLs. The HTTP
client capability carries no observable state and is omitted. -/
structure WeComBot where
  url : String
  upload_base_url : String

/-- `WeComBotBuilder`: collected configuration (the optional key; the
optional client capability is irrelevant to URL derivation). -/
structure WeComBotBuilder where
  key : Option String

/-- The `format_wecom_url!` macro: no key, or a key that trims to length
zero, is `KeyNotFound`; otherwise the two URLs with `?key=<key>`
appended. -/
def format_wecom_url (key : Option String) : Except WeComError (String × String) :=
  match key with
  | none => .error .keyNotFound
  | some k =>
    if (rustTrim k).length = 0 then .error .keyNotFound
    else .ok (WECOM_SEND_URL ++ "?key=" ++ k, WECOM_UPLOAD_URL ++ "?key=" ++ k)

/-- `WeComBotBuilder::build`: derive the URLs (failing with `KeyNotFound`
per `format_wecom_url!`) and assemble the client. No network call is
involved. -/
def WeComBotBuilder.build (b : WeComBotBuilder) : Except WeComError WeComBot :=
  match format_wecom_url b.key with
  | .error e => .error e
  | .ok urls => .ok ⟨urls.1, urls.2⟩

/-- An HTTP response as the client observes it: the status code and the
body. A body that is not parseable JSON text is `none`; otherwise the
parsed JSON value. -/
structure HttpResponse where
  status : Nat
  body : Option Json

/-- `StatusCode::is_server_error`: status in `500..=599`. -/
def statusIsServerError (s : Nat) : Bool :=
  500 ≤ s && s ≤ 599

/-- `any::type_name::<SendResp>()`. -/
def sendRespTypename : String := "wecom_bot::response::SendResp"

/-- `WeComBot::send`, response handling: the POST exchange is abstracted
into the received `HttpResponse`. A 5xx status is the `Http` error
carrying that status; otherwise the body is decoded as `SendResp`, and a
body that is not valid JSON for that type is the `DataType` error
carrying the type's name. -/
def WeComBot.send (resp : HttpResponse) : Except WeComError SendResp :=
  if statusIsServerError resp.status then .error (.http resp.status)
  else
    match resp.body with
    | none => .error (.dataType sendRespTypename)
    | some j =>
      match decodeSendResp j with
      | none => .error (.dataType sendRespTypename)
      | some r => .ok r

/-! ## Helper lemmas -/

/-- A string trims to length zero exactly when every character is
whitespace (vacuously, when it is empty). -/
theorem rustTrim_length_zero_iff (s : String) :
    (rustTrim s).length = 0 ↔ ∀ c ∈ s.data, rustIsWhitespace c := by
  have hsub : ∀ c ∈ s.data.dropWhile rustIsWhitespace, c ∈ s.data := by
    intro c hc
    exact (List.dropWhile_sublist rustIsWhitespace).subset hc
  have hall : (∀ c ∈ s.data.dropWhile rustIsWhitespace, rustIsWhitespace c) ↔
      ∀ c ∈ s.data, rustIsWhitespace c := by
    constructor
    · intro h c hc
      rw [← List.takeWhile_append_dropWhile (p := rustIsWhitespace) (l := s.data)] at hc
      rcases List.mem_append.mp hc with h1 | h2
      · exact List.mem_takeWhile_imp h1
      · exact h c h2
    · intro h c hc
      exact h c (hsub c hc)
  simp only [rustTrim, String.length, List.length_reverse, List.length_eq_zero,
    List.dropWhile_eq_nil_iff, List.mem_reverse]
  exact hall

/-! ## Claims -/

/-- C1: every constructor serializes to an object with exactly two
top-level keys, `msgtype` holding the variant's wire tag and one payload
key equal to that tag holding the variant's field map, with unset
optional fields entirely absent; `Message::text("Text-Only")` gives the
documented example. -/
theorem wecom_c1 :
    (∀ c, (Message.text c).toJson =
      Json.obj [("msgtype", Json.str "text"),
        ("text", Json.obj [("content", Json.str c)])]) ∧
    (∀ c, (Message.markdown c).toJson =
      Json.obj [("msgtype", Json.str "markdown"),
        ("markdown", Json.obj [("content", Json.str c)])]) ∧
    (∀ img : Image, (Message.image img).toJson =
      Json.obj [("msgtype", Json.str "image"),
        ("image", Json.obj [("base64", Json.str img.encode.1),
          ("md5", Json.str img.encode.2)])]) ∧
    (∀ arts : List Article, (Message.news arts).toJson =
      Json.obj [("msgtype", Json.str "news"),
        ("news", Json.obj [("articles", Json.arr (arts.map Article.toJson))])]) ∧
    (∀ mid, (Message.file mid).toJson =
      Json.obj [("msgtype", Json.str "file"),
        ("file", Json.obj [("media_id", Json.str mid)])]) ∧
    (Message.text "Text-Only").toJson =
      Json.obj [("msgtype", Json.str "text"),
        ("text", Json.obj [("content", Json.str "Text-Only")])] :=
  ⟨fun _ => rfl, fun _ => rfl, fun _ => rfl, fun _ => rfl, fun _ => rfl, rfl⟩

/-- C2: the mention-list setters set the corresponding field on a
Text-variant message (which then appears in the serialized JSON) and are
a silent no-op on every non-Text message, which therefore serializes
identically to the unmodified message. -/
theorem wecom_c2 :
    (∀ c l, (Message.text c).mentioned_list l =
        ⟨"text", MessageBody.text c (some l) none⟩ ∧
      ((Message.text c).mentioned_list l).toJson =
        Json.obj [("msgtype", Json.str "text"),
          ("text", Json.obj [("content", Json.str c),
            ("mentioned_list", Json.arr (l.map Json.str))])]) ∧
    (∀ c l, (Message.text c).mentioned_mobile_list l =
        ⟨"text", MessageBody.text c none (some l)⟩ ∧
      ((Message.text c).mentioned_mobile_list l).toJson =
        Json.obj [("msgtype", Json.str "text"),
          ("text", Json.obj [("content", Json.str c),
            ("mentioned_mobile_list", Json.arr (l.map Json.str))])]) ∧
    (∀ (m : Message) (l : List String), m.body.isText = false →
      m.mentioned_list l = m ∧ m.mentioned_mobile_list l = m ∧
      (m.mentioned_list l).toJson = m.toJson ∧
      (m.mentioned_mobile_list l).toJson = m.toJson) := by
  refine ⟨fun c l => ⟨rfl, rfl⟩, fun c l => ⟨rfl, rfl⟩, fun m l h => ?_⟩
  obtain ⟨t, body⟩ := m
  cases body with
  | text content ml mml => simp [MessageBody.isText] at h
  | markdown c => exact ⟨rfl, rfl, rfl, rfl⟩
  | image b5 m5 => exact ⟨rfl, rfl, rfl, rfl⟩
  | news arts => exact ⟨rfl, rfl, rfl, rfl⟩
  | file mid => exact ⟨rfl, rfl, rfl, rfl⟩

/-- C2 witness: applying a setter to a concrete Markdown message leaves
it, and its serialization, unchanged. -/
theorem wecom_c2_witness :
    (Message.markdown "# hi").mentioned_list ["u1"] = Message.markdown "# hi" ∧
    ((Message.markdown "# hi").mentioned_list ["u1"]).toJson =
      (Message.markdown "# hi").toJson :=
  ⟨(wecom_c2.2.2 (Message.markdown "# hi") ["u1"] rfl).1,
   (wecom_c2.2.2 (Message.markdown "# hi") ["u1"] rfl).2.2.1⟩

/-- C3: `Message::image` stores the pair produced by `Image::encode`,
which is the standard padded base64 of the raw bytes together with the
lowercase hex MD5 of the same raw pre-base64 bytes; the encoding is a
pure function of the content (deterministic), and on the bytes of
`"image"` it yields the documented pair. -/
theorem wecom_c3 :
    (∀ img : Image, Message.image img =
      ⟨"image", MessageBody.image img.encode.1 img.encode.2⟩) ∧
    (∀ img : Image, img.encode = (base64Encode img.content, md5Hex img.content)) ∧
    (∀ i1 i2 : Image, i1.content = i2.content → i1.encode = i2.encode) ∧
    Image.encode ⟨[105, 109, 97, 103, 101]⟩ =
      ("aW1hZ2U=", "78805a221a988e79ef3f42d7c5bfd418") := by
  refine ⟨fun _ => rfl, fun _ => rfl, ?_, by decide⟩
  rintro ⟨c1⟩ ⟨c2⟩ h
  cases h
  rfl

/-- C3 witness: the determinism clause applied at the concrete bytes of
`"image"`, whose encoding is the documented pair. -/
theorem wecom_c3_witness :
    Image.encode ⟨[105, 109, 97, 103, 101]⟩ = Image.encode ⟨[105, 109, 97, 103, 101]⟩ ∧
    Image.encode ⟨[105, 109, 97, 103, 101]⟩ =
      ("aW1hZ2U=", "78805a221a988e79ef3f42d7c5bfd418") :=
  ⟨wecom_c3.2.2.1 ⟨[105, 109, 97, 103, 101]⟩ ⟨[105, 109, 97, 103, 101]⟩ rfl,
   wecom_c3.2.2.2⟩

/-- C4: building a client fails with `KeyNotFound` exactly when no key
was supplied or the key consists only of whitespace (including the empty
key); on any other key it succeeds with the two fixed endpoints suffixed
by `?key=<key>`. -/
theorem wecom_c4 :
    (WeComBotBuilder.mk none).build = .error .keyNotFound ∧
    (∀ k : String, (∀ c ∈ k.data, rustIsWhitespace c) →
      (WeComBotBuilder.mk (some k)).build = .error .keyNotFound) ∧
    (∀ k : String, ¬(∀ c ∈ k.data, rustIsWhitespace c) →
      (WeComBotBuilder.mk (some k)).build =
        .ok ⟨WECOM_SEND_URL ++ "?key=" ++ k, WECOM_UPLOAD_URL ++ "?key=" ++ k⟩) ∧
    (∀ key : Option String, (WeComBotBuilder.mk key).build = .error .keyNotFound ↔
      key = none ∨ ∃ k, key = some k ∧ ∀ c ∈ k.data, rustIsWhitespace c) := by
  refine ⟨rfl, ?_, ?_, ?_⟩
  · intro k hk
    have h0 : (rustTrim k).length = 0 := (rustTrim_length_zero_iff k).mpr hk
    simp [WeComBotBuilder.build, format_wecom_url, h0]
  · intro k hk
    have h0 : ¬(rustTrim k).length = 0 := fun h => hk ((rustTrim_length_zero_iff k).mp h)
    simp [WeComBotBuilder.build, format_wecom_url, h0]
  · intro key
    cases key with
    | none => simp [WeComBotBuilder.build, format_wecom_url]
    | some k =>
      by_cases h0 : (rustTrim k).length = 0
      · have hw := (rustTrim_length_zero_iff k).mp h0
        simp [WeComBotBuilder.build, format_wecom_url, h0]
        exact hw
      · have hw : ¬ ∀ c ∈ k.data, rustIsWhitespace c = true :=
          fun h => h0 ((rustTrim_length_zero_iff k).mpr h)
        simp [WeComBotBuilder.build, format_wecom_url, h0]
        simpa using hw

/-- C4 witness: a whitespace-only key fails with `KeyNotFound`, a
non-blank key succeeds with the two suffixed URLs. -/
theorem wecom_c4_witness :
    (WeComBotBuilder.mk (some "  ")).build = .error .keyNotFound ∧
    (WeComBotBuilder.mk (some "abc")).build =
      .ok ⟨WECOM_SEND_URL ++ "?key=" ++ "abc", WECOM_UPLOAD_URL ++ "?key=" ++ "abc"⟩ :=
  ⟨wecom_c4.2.1 "  " (by decide), wecom_c4.2.2.1 "abc" (by decide)⟩

/-- C5: a 5xx response status yields the remote-server-error carrying
that status; any other status has its body decoded — an unparseable or
wrongly-shaped body yields the decode error carrying the expected type's
name, while a well-formed body decodes to a `SendResp` (returned as
success even with nonzero `errcode`, as at the concrete 93000 example). -/
theorem wecom_c5 :
    (∀ s : Nat, statusIsServerError s = true ↔ 500 ≤ s ∧ s ≤ 599) ∧
    (∀ resp : HttpResponse, statusIsServerError resp.status = true →
      WeComBot.send resp = .error (.http resp.status)) ∧
    (∀ resp : HttpResponse, statusIsServerError resp.status = false →
      resp.body = none → WeComBot.send resp = .error (.dataType sendRespTypename)) ∧
    (∀ (resp : HttpResponse) (j : Json), statusIsServerError resp.status = false →
      resp.body = some j → decodeSendResp j = none →
      WeComBot.send resp = .error (.dataType sendRespTypename)) ∧
    (∀ (resp : HttpResponse) (j : Json) (r : SendResp),
      statusIsServerError resp.status = false →
      resp.body = some j → decodeSendResp j = some r →
      WeComBot.send resp = .ok r) ∧
    WeComBot.send ⟨200, some (Json.obj [("errcode", Json.num 93000),
        ("errmsg", Json.str "invalid webhook key")])⟩ =
      .ok ⟨93000, "invalid webhook key"⟩ := by
  refine ⟨?_, ?_, ?_, ?_, ?_, rfl⟩
  · intro s; simp [statusIsServerError]
  · intro resp h; simp [WeComBot.send, h]
  · intro resp h hb; simp [WeComBot.send, h, hb]
  · intro resp j h hb hd; simp [WeComBot.send, h, hb, hd]
  · intro resp j r h hb hd; simp [WeComBot.send, h, hb, hd]

/-- C5 witness: the status and decode clauses applied at concrete
responses — a 500, a 200 with an unparseable body, a 200 with a
non-object body, and a 200 with a well-formed body. -/
theorem wecom_c5_witness :
    WeComBot.send ⟨500, none⟩ = .error (.http 500) ∧
    WeComBot.send ⟨200, none⟩ = .error (.dataType sendRespTypename) ∧
    WeComBot.send ⟨200, some (Json.str "oops")⟩ = .error (.dataType sendRespTypename) ∧
    WeComBot.send ⟨200, some (Json.obj [("errcode", Json.num 0), ("errmsg", Json.str "ok")])⟩ =
      .ok ⟨0, "ok"⟩ :=
  ⟨wecom_c5.2.1 ⟨500, none⟩ rfl,
   wecom_c5.2.2.1 ⟨200, none⟩ rfl rfl,
   wecom_c5.2.2.2.1 ⟨200, some (Json.str "oops")⟩ (Json.str "oops") rfl rfl rfl,
   wecom_c5.2.2.2.2.1 ⟨200, some (Json.obj [("errcode", Json.num 0), ("errmsg", Json.str "ok")])⟩
     (Json.obj [("errcode", Json.num 0), ("errmsg", Json.str "ok")]) ⟨0, "ok"⟩ rfl rfl rfl⟩

/-- C6: an Article always serializes `title` and `url`; `description`
appears exactly when set; the picture link, when set, appears under the
wire name `picurl` and is otherwise omitted; `Article::new` leaves both
optional fields unset. -/
theorem wecom_c6 :
    (∀ t u, Article.new t u = ⟨t, none, u, none⟩) ∧
    (∀ t u, (Article.new t u).toJson =
      Json.obj [("title", Json.str t), ("url", Json.str u)]) ∧
    (∀ t u d p, (Article.mk t (some d) u (some p)).toJson =
      Json.obj [("title", Json.str t), ("description", Json.str d),
        ("url", Json.str u), ("picurl", Json.str p)]) ∧
    (∀ t u d, (Article.mk t (some d) u none).toJson =
      Json.obj [("title", Json.str t), ("description", Json.str d),
        ("url", Json.str u)]) ∧
    (∀ t u p, (Article.mk t none u (some p)).toJson =
      Json.obj [("title", Json.str t), ("url", Json.str u),
        ("picurl", Json.str p)]) :=
  ⟨fun _ _ => rfl, fun _ _ => rfl, fun _ _ _ _ => rfl, fun _ _ _ => rfl, fun _ _ _ => rfl⟩

/-- C7: `Message::news` is total — for every article sequence, of any
length (0 and 9 included), it serializes with the `articles` array the
elementwise serialization of the input, preserving length and order. -/
theorem wecom_c7 :
    (∀ arts : List Article, (Message.news arts).toJson =
      Json.obj [("msgtype", Json.str "news"),
        ("news", Json.obj [("articles", Json.arr (arts.map Article.toJson))])]) ∧
    (∀ arts : List Article, (arts.map Article.toJson).length = arts.length) ∧
    (∀ (arts : List Article) (i : Nat),
      (arts.map Article.toJson)[i]? = (arts[i]?).map Article.toJson) ∧
    (Message.news []).toJson =
      Json.obj [("msgtype", Json.str "news"),
        ("news", Json.obj [("articles", Json.arr [])])] ∧
    (Message.news (List.replicate 9 (Article.new "t" "u"))).toJson =
      Json.obj [("msgtype", Json.str "news"),
        ("news", Json.obj [("articles",
          Json.arr (List.replicate 9 (Article.new "t" "u") |>.map Article.toJson))])] := by
  refine ⟨fun _ => rfl, fun arts => List.length_map arts Article.toJson, ?_, rfl, rfl⟩
  intro arts i
  simp [List.getElem?_map]

/-- C8: parsing the canonical lowercase form of each media type returns
that media type; parsing any string whose lowercase form is outside the
recognized set fails with the media-type error carrying the offending
string; and the upload URL appends `&type=<kind>` to the base. -/
theorem wecom_c8 :
    (∀ m : MediaType, MediaType.from_str m.to_string = .ok m) ∧
    (∀ s : String, rustToLowercase s ∉ ["file", "image", "voice", "video"] →
      MediaType.from_str s = .error (.mediaType s)) ∧
    (∀ (m : MediaType) (base : String),
      m.format_upload_url base = base ++ "&type=" ++ m.to_string) := by
  refine ⟨?_, ?_, fun m base => rfl⟩
  · intro m; cases m <;> rfl
  · intro s h
    simp only [List.mem_cons, List.not_mem_nil, or_false, not_or] at h
    obtain ⟨h1, h2, h3, h4⟩ := h
    simp [MediaType.from_str, h1, h2, h3, h4]

/-- C8 witness: the unrecognized string `"gif"` fails with the media-type
error carrying it. -/
theorem wecom_c8_witness :
    MediaType.from_str "gif" = .error (.mediaType "gif") :=
  wecom_c8.2.1 "gif" (by decide)

/-- C9 (amended): for every `UploadResp` value — the only response type
carrying an `is_ok` method — `is_ok` holds exactly when `err_code = 0`;
the default `UploadResp` is ok with an empty `media_id`; and decoding an
upload response object lacking `type`, `media_id` and `created_at`
succeeds with those fields defaulted to the empty string. -/
theorem wecom_c9 :
    (∀ r : UploadResp, r.is_ok = true ↔ r.err_code = 0) ∧
    (UploadResp.default_value.is_ok = true ∧ UploadResp.default_value.media_id = "") ∧
    (∀ (code : Int) (msg : String),
      decodeUploadResp (Json.obj [("errcode", Json.num code), ("errmsg", Json.str msg)]) =
        some ⟨code, msg, "", "", ""⟩) := by
  refine ⟨fun r => ?_, ⟨rfl, rfl⟩, fun code msg => rfl⟩
  simp [UploadResp.is_ok]

/-- C10: on a Text message the mention-list setters overwrite any
previously set list (last write wins), and setting an empty sequence
yields an empty list that is emitted in the serialized JSON rather than
omitted. -/
theorem wecom_c10 :
    (∀ (t content : String) (ml mml : Option (List String)) (l : List String),
      (Message.mk t (.text content ml mml)).mentioned_list l =
        ⟨t, .text content (some l) mml⟩) ∧
    (∀ (t content : String) (ml mml : Option (List String)) (l : List String),
      (Message.mk t (.text content ml mml)).mentioned_mobile_list l =
        ⟨t, .text content ml (some l)⟩) ∧
    (∀ c l1 l2, ((Message.text c).mentioned_list l1).mentioned_list l2 =
      (Message.text c).mentioned_list l2) ∧
    (∀ c l1 l2,
      ((Message.text c).mentioned_mobile_list l1).mentioned_mobile_list l2 =
        (Message.text c).mentioned_mobile_list l2) ∧
    (∀ c, ((Message.text c).mentioned_list []).toJson =
      Json.obj [("msgtype", Json.str "text"),
        ("text", Json.obj [("content", Json.str c),
          ("mentioned_list", Json.arr [])])]) ∧
    (∀ c, ((Message.text c).mentioned_mobile_list []).toJson =
      Json.obj [("msgtype", Json.str "text"),
        ("text", Json.obj [("content", Json.str c),
          ("mentioned_mobile_list", Json.arr [])])]) :=
  ⟨fun _ _ _ _ _ => rfl, fun _ _ _ _ _ => rfl, fun _ _ _ => rfl, fun _ _ _ => rfl,
   fun _ => rfl, fun _ => rfl⟩

/-- C9 counterexample: the claim as stated also asserts the success
predicate `is_ok()` for `SendResp` values, but the embedded inherent
method surfaces of `src/response.rs` show `is_ok` among `UploadResp`'s
methods and not among `SendResp`'s — `SendResp` has no `is_ok` at all,
so no `SendResp` value carries the claimed predicate. -/
theorem wecom_c9_counterexample :
    "is_ok" ∉ sendRespMethods ∧ "is_ok" ∈ uploadRespMethods := by
  decide
